import Mathlib

/-!
Verification of the GCC Wealth Investment Platform frontend
(`wealth-platform-user-app`) against its natural-language specification.

The definitions below are shallow embeddings of the TypeScript source
under the language's runtime semantics: monetary amounts are rationals,
JavaScript objects are structures, bracket access on object literals
follows the prototype chain (a key naming an `Object.prototype` member
yields that truthy inherited member, not `undefined`), thrown errors are
`Except` errors, and the demo-mode mock API responses are functions of
the request (with `Math.random()` / `Date` modelled as explicit inputs,
and `JSON.parse` failures modelled as the errors they throw).
-/

namespace GccWealth

/-! ## Tenant data model (src/wealth-platform-user-app/src/lib/tenant.ts) -/

inductive Country where
  | AE
  | SA
  deriving DecidableEq

structure BankBranding where
  logo_url : String
  primary_color : String
  secondary_color : String
  font_family : String
  app_name : String
  deriving DecidableEq

structure BankFeatures where
  sharia_products : Bool
  zakat_calculator : Bool
  estate_planning : Bool
  goal_based_investing : Bool
  deriving DecidableEq

structure BankConfig where
  id : String
  slug : String
  name : String
  country : Country
  branding : BankBranding
  features : BankFeatures
  api_base_url : String
  deriving DecidableEq

/-- The `'fab'` entry of `MOCK_BANKS` in tenant.ts. -/
def fabConfig : BankConfig :=
  { id := "bank-fab-001", slug := "fab", name := "First Abu Dhabi Bank", country := Country.AE,
    branding :=
      { logo_url := "/tenant-assets/fab/logo.svg", primary_color := "#00A651",
        secondary_color := "#003366", font_family := "Inter, sans-serif",
        app_name := "FAB Wealth" },
    features :=
      { sharia_products := true, zakat_calculator := true, estate_planning := true,
        goal_based_investing := true },
    api_base_url := "http://localhost:8000/api/v1" }

/-- The `'hsbc'` entry of `MOCK_BANKS` in tenant.ts. -/
def hsbcConfig : BankConfig :=
  { id := "bank-hsbc-002", slug := "hsbc", name := "HSBC Middle East", country := Country.AE,
    branding :=
      { logo_url := "/tenant-assets/hsbc/logo.svg", primary_color := "#DB0011",
        secondary_color := "#000000", font_family := "Univers, Arial, sans-serif",
        app_name := "HSBC Wealth Manager" },
    features :=
      { sharia_products := false, zakat_calculator := false, estate_planning := true,
        goal_based_investing := true },
    api_base_url := "http://localhost:8000/api/v1" }

/-- The `'rajhi'` entry of `MOCK_BANKS` in tenant.ts. -/
def rajhiConfig : BankConfig :=
  { id := "bank-rajhi-003", slug := "rajhi", name := "Al Rajhi Bank", country := Country.SA,
    branding :=
      { logo_url := "/tenant-assets/rajhi/logo.svg", primary_color := "#004B87",
        secondary_color := "#F7941D", font_family := "Tahoma, sans-serif",
        app_name := "الراجحي للثروات" },
    features :=
      { sharia_products := true, zakat_calculator := true, estate_planning := true,
        goal_based_investing := true },
    api_base_url := "http://localhost:8000/api/v1" }

/-- `MOCK_BANKS` from tenant.ts, as an association list keyed by slug. -/
def MOCK_BANKS : List (String × BankConfig) :=
  [("fab", fabConfig), ("hsbc", hsbcConfig), ("rajhi", rajhiConfig)]

/-- The result of JavaScript bracket access `obj[key]` on a plain object
literal: an own key yields its value, a key naming a member inherited
from `Object.prototype` yields that member (a truthy function, or the
prototype object for `__proto__`), any other key yields `undefined`. -/
inductive JsProp (α : Type) where
  | value : α → JsProp α
  | inherited : String → JsProp α
  | undef : JsProp α
  deriving DecidableEq

/-- The member names every plain object literal inherits from
`Object.prototype`; all of them evaluate to truthy values. -/
def objectPrototypeKeys : List String :=
  ["constructor", "hasOwnProperty", "isPrototypeOf", "propertyIsEnumerable",
   "toLocaleString", "toString", "valueOf", "__proto__",
   "__defineGetter__", "__defineSetter__", "__lookupGetter__", "__lookupSetter__"]

/-- `obj[key]` on an object literal whose own properties are the given
association list, under JavaScript prototype-chain semantics. -/
def jsIndex {α : Type} (own : List (String × α)) (key : String) : JsProp α :=
  match own.lookup key with
  | some v => JsProp.value v
  | none =>
    if objectPrototypeKeys.contains key then JsProp.inherited key else JsProp.undef

/-- `MOCK_BANKS[slug]` as the program evaluates it. -/
def mockBanksAccess (slug : String) : JsProp BankConfig :=
  jsIndex MOCK_BANKS slug

/-- JavaScript truthiness of a `MOCK_BANKS[slug]` access: own configs
are objects and inherited members are functions or objects, all truthy;
only `undefined` is falsy. -/
def bankTruthy (p : JsProp BankConfig) : Bool :=
  match p with
  | JsProp.undef => false
  | _ => true

/-- A runtime value the expression `MOCK_BANKS[slug]` can produce: one
of the configured `BankConfig` objects, or a member leaked from
`Object.prototype` (typed `BankConfig` by the unsound index signature,
but a function or object at runtime). -/
inductive JsBankValue where
  | config : BankConfig → JsBankValue
  | protoLeak : String → JsBankValue
  deriving DecidableEq

/-- `getTenantBySlug` from tenant.ts: `MOCK_BANKS[slug] || null`. Own
entries and inherited `Object.prototype` members are truthy and are
returned as-is; only an absent key falls through to `null`. -/
def getTenantBySlug (slug : String) : Option JsBankValue :=
  match mockBanksAccess slug with
  | JsProp.value cfg => some (JsBankValue.config cfg)
  | JsProp.inherited name => some (JsBankValue.protoLeak name)
  | JsProp.undef => none

/-- `getAllTenantSlugs` from tenant.ts: `Object.keys(MOCK_BANKS)` (own
enumerable keys only; inherited members are not listed). -/
def getAllTenantSlugs : List String :=
  MOCK_BANKS.map Prod.fst

/-! ## resolveTenant (tenant.ts)

`resolveTenant(hostname, pathname)` tries three strategies to find a
tenant slug and then returns a config or calls Next.js `notFound()`.
The two network calls (custom-domain lookup and slug-config fetch) are
modelled as oracle functions returning `Option` (a failed or non-ok
response is `none`, mirroring the `try`/`catch` fallthrough), and the
`process.env.NEXT_PUBLIC_API_URL` guard as an `Option String`. -/

inductive ResolveError where
  | notFound
  deriving DecidableEq

/-- Splitting loop of JavaScript `s.split(sep)` for a nonempty
separator, with explicit structural fuel (one unit per character of the
input suffices, since every step consumes at least one character). -/
def jsSplitAux (sep : List Char) : Nat → List Char → List Char → List (List Char)
  | 0, _, acc => [acc.reverse]
  | _ + 1, [], acc => [acc.reverse]
  | fuel + 1, c :: rest, acc =>
    if sep.isPrefixOf (c :: rest) then
      acc.reverse :: jsSplitAux sep fuel (List.drop (sep.length - 1) rest) []
    else
      jsSplitAux sep fuel rest (c :: acc)

/-- JavaScript `s.split(sep)` for a nonempty separator. -/
def jsSplit (s sep : String) : List String :=
  (jsSplitAux sep.data (s.data.length + 1) s.data []).map (fun cs => String.mk cs)

/-- JavaScript `s.includes(pat)`: `pat` occurs as a substring of `s`. -/
def strIncludes (s pat : String) : Bool :=
  (jsSplit s pat).length != 1

/-- JavaScript `s.startsWith(pre)`. -/
def jsStartsWith (s pre : String) : Bool :=
  pre.data.isPrefixOf s.data

/-- Strategy 1 of `resolveTenant`: subdomain extraction. The guard is
the truthiness of `MOCK_BANKS[candidateSlug]`, which inherited
`Object.prototype` members pass as well. -/
def subdomainSlug (hostname : String) : Option String :=
  if strIncludes hostname "." && !strIncludes hostname "localhost"
      && !strIncludes hostname "vercel.app" then
    let parts := jsSplit hostname "."
    if parts.length > 2 then
      match parts.head? with
      | some candidate => if bankTruthy (mockBanksAccess candidate) then some candidate else none
      | none => none
    else none
  else none

/-- Strategy 2 of `resolveTenant`: first path segment, guarded by the
truthiness of `MOCK_BANKS[pathParts[0]]`. -/
def pathSlug (pathname : String) : Option String :=
  if jsStartsWith pathname "/" then
    let pathParts := (jsSplit pathname "/").filter (fun p => p ≠ "")
    match pathParts.head? with
    | some p0 => if bankTruthy (mockBanksAccess p0) then some p0 else none
    | none => none
  else none

/-- The slug after all three strategies of `resolveTenant` have run.
`domainLookup` is the `/api/v1/tenants/resolve?domain=` call; an empty
`data.slug` is falsy in the JavaScript guards downstream, so it is
normalised to `none` here. -/
def resolveSlug (apiUrl : Option String) (domainLookup : String → Option String)
    (hostname pathname : String) : Option String :=
  let s1 := subdomainSlug hostname
  let s2 := match s1 with
    | some s => some s
    | none => pathSlug pathname
  match s2 with
  | some s => some s
  | none =>
    if apiUrl.isSome && !strIncludes hostname "vercel.app" then
      match domainLookup hostname with
      | some s => if s = "" then none else some s
      | none => none
    else none

/-- The tail of `resolveTenant`: `if (tenantSlug && MOCK_BANKS[tenantSlug])
return MOCK_BANKS[tenantSlug]` — which returns the inherited member when
the slug names an `Object.prototype` member — else try the
`/api/v1/banks/slug/{slug}/config` fetch (`configFetch`), else
`notFound()`. -/
def resolveFinal (apiUrl : Option String) (configFetch : String → Option BankConfig)
    (slug? : Option String) : Except ResolveError JsBankValue :=
  match slug? with
  | some s =>
    match mockBanksAccess s with
    | JsProp.value cfg => Except.ok (JsBankValue.config cfg)
    | JsProp.inherited name => Except.ok (JsBankValue.protoLeak name)
    | JsProp.undef =>
      if apiUrl.isSome then
        match configFetch s with
        | some cfg => Except.ok (JsBankValue.config cfg)
        | none => Except.error ResolveError.notFound
      else Except.error ResolveError.notFound
  | none => Except.error ResolveError.notFound

/-- `resolveTenant` from tenant.ts. -/
def resolveTenant (apiUrl : Option String) (domainLookup : String → Option String)
    (configFetch : String → Option BankConfig) (hostname pathname : String) :
    Except ResolveError JsBankValue :=
  resolveFinal apiUrl configFetch (resolveSlug apiUrl domainLookup hostname pathname)

/-! ## TenantProvider / useTenant (src/unnamed/part_001,
components/tenant/TenantProvider.tsx)

The React context value is `BankConfig | null`, created with default
`null`; `TenantProvider` supplies its `config` prop as the value. -/

/-- `createContext<BankConfig | null>(null)`: the default context value. -/
def tenantContextDefault : Option BankConfig := none

/-- The context value inside `<TenantProvider config={...}>`. -/
def provideTenant (config : BankConfig) : Option BankConfig := some config

/-- `useTenant()`: throws when the context is `null` (falsy), returns it
otherwise. -/
def useTenant (ctx : Option BankConfig) : Except String BankConfig :=
  match ctx with
  | some c => Except.ok c
  | none => Except.error "useTenant must be used within TenantProvider"

/-- `useTenantOptional()`: returns the context value as-is. -/
def useTenantOptional (ctx : Option BankConfig) : Option BankConfig := ctx

/-! ## Zakat calculator
(src/wealth-platform-user-app/src/app/[tenant]/tax/zakat/page.tsx) -/

structure ZakatAssets where
  cash_bank : ℚ
  gold_silver : ℚ
  investments : ℚ
  business_assets : ℚ
  receivables : ℚ
  real_estate_rental : ℚ
  deriving DecidableEq

structure ZakatLiabilities where
  short_term_debts : ℚ
  loans : ℚ
  credit_cards : ℚ
  deriving DecidableEq

structure ZakatConfig where
  hijri_year : ℕ
  gregorian_year : ℕ
  nisab_gold_price : ℚ
  nisab_threshold : ℚ
  assets : ZakatAssets
  liabilities : ZakatLiabilities
  deriving DecidableEq

/-- `mockZakatData` from zakat/page.tsx (`nisab_gold_price` is the
module comment's "per ounce" price; `nisab_threshold` is the hard-coded
constant annotated "85 grams * $64.24/gram"). -/
def mockZakatData : ZakatConfig :=
  { hijri_year := 1448, gregorian_year := 2026, nisab_gold_price := 2000,
    nisab_threshold := 5460,
    assets :=
      { cash_bank := 50000, gold_silver := 12000, investments := 200000,
        business_assets := 0, receivables := 5000, real_estate_rental := 0 },
    liabilities := { short_term_debts := 15000, loans := 0, credit_cards := 2000 } }

/-- `Object.values(assets).reduce((sum, val) => sum + val, 0)` in
insertion order of the keys. -/
def totalAssets (a : ZakatAssets) : ℚ :=
  0 + a.cash_bank + a.gold_silver + a.investments + a.business_assets
    + a.receivables + a.real_estate_rental

/-- `Object.values(liabilities).reduce((sum, val) => sum + val, 0)`. -/
def totalLiabilities (l : ZakatLiabilities) : ℚ :=
  0 + l.short_term_debts + l.loans + l.credit_cards

/-- `netZakatableWealth = totalAssets - totalLiabilities`. -/
def netZakatableWealth (a : ZakatAssets) (l : ZakatLiabilities) : ℚ :=
  totalAssets a - totalLiabilities l

/-- `nisabMet = netZakatableWealth >= mockZakatData.nisab_threshold`,
parametrised by the config record the page reads the threshold from. -/
def nisabMet (cfg : ZakatConfig) (a : ZakatAssets) (l : ZakatLiabilities) : Bool :=
  decide (netZakatableWealth a l ≥ cfg.nisab_threshold)

/-- `zakatDue = nisabMet ? netZakatableWealth * 0.025 : 0`. -/
def zakatDue (cfg : ZakatConfig) (a : ZakatAssets) (l : ZakatLiabilities) : ℚ :=
  if nisabMet cfg a l then netZakatableWealth a l * (25 / 1000) else 0

/-- Modelled from the spec: the nisab threshold as the spec words it,
"a configured gold-price-per-gram × 85 grams, recomputed per call".
The page itself never computes this product; this definition exists to
compare the spec's formula with the constant the code actually uses. -/
def nisabFromGoldPerGram (pricePerGram : ℚ) : ℚ :=
  85 * pricePerGram

/-! ## Demo-mode mock API
(src/wealth-platform-user-app/src/components/portfolio/index.tsx,
`ApiClient.getMockData`)

When the backend is unreachable in demo mode, `request` falls back to
`getMockData(endpoint, options)`.  `request` destructures `options` and
stringifies the body only into the separate `fetchOptions` object it
passes to `fetch`; `getMockData` receives the ORIGINAL `options`, whose
`body` is still the raw request object.  The `/fees/calculate` branch
starts with `JSON.parse(options.body || ...)`, so a supplied body — an
object, which JavaScript coerces to the string "[object Object]" — makes
the parse throw a SyntaxError before the branch's response is built.
The `/fees/charge` branch performs no parse; it draws a fresh random
suffix (`Math.random().toString(36).substring(7)`) and a timestamp,
modelled as explicit inputs. -/

structure FeeCalcRequest where
  fee_code : String
  quantity : Option ℕ
  base_amount : Option ℚ
  deriving DecidableEq

structure FeeCalcResponse where
  fee_amount : ℚ
  currency : String
  description : String
  chargeable_to : String
  is_optional : Bool
  breakdown_rate : Option ℚ
  deriving DecidableEq

/-- The response object the `/fees/calculate` branch of `getMockData`
builds from an already-parsed body (the code after the `JSON.parse`
line). -/
def mockCalculateResponse (body : FeeCalcRequest) : FeeCalcResponse :=
  let amount : ℚ := if body.fee_code = "TAX_REPORT_FATCA" then 1999 / 100 else 999 / 100
  { fee_amount := amount, currency := "USD", description := "Demo Fee Calculation",
    chargeable_to := "end_user", is_optional := true, breakdown_rate := none }

/-- The demo-mode `/fees/calculate` fallback as the program runs it:
`JSON.parse(options.body || ...)` receives the raw un-stringified
request object whenever a body was supplied and throws a SyntaxError; an
absent body parses the default as the empty object, whose missing
`fee_code` (modelled as the empty string) matches no fee code. -/
def demoCalculateFee (body : Option FeeCalcRequest) : Except String FeeCalcResponse :=
  match body with
  | some _ => Except.error "SyntaxError"
  | none =>
    Except.ok (mockCalculateResponse { fee_code := "", quantity := none, base_amount := none })

structure ChargeResponse where
  charge_id : String
  status : String
  amount : ℚ
  currency : String
  created_at : String
  deriving DecidableEq

/-- The `/fees/charge` branch of `getMockData`; `randSuffix` is the
fresh draw of `Math.random().toString(36).substring(7)` and `now` the
`new Date().toISOString()` timestamp of the call. -/
def mockChargeFee (randSuffix : String) (now : String) : ChargeResponse :=
  { charge_id := "mock_charge_" ++ randSuffix, status := "captured", amount := 1999 / 100,
    currency := "USD", created_at := now }

/-! ## FATCA evaluator -/

/-- The maximum aggregate foreign balance over a time series of
aggregate balances (fold of `max` from 0). -/
def maxAggregate (series : List ℚ) : ℚ :=
  series.foldl max 0

/-- Modelled from the spec: the FATCA rule evaluator is part of the
FastAPI backend, which is absent from the repository sources (only the
`FatcaReport` response declaration and its `getFatcaReport` caller are
present in index.tsx).  Per the spec, for a U.S. person `requires_fbar`
is true when the maximum aggregate foreign balance across the time
series strictly exceeds the $10,000 statutory threshold. -/
def fatcaRequiresFbar (is_us_person : Bool) (series : List ℚ) : Bool :=
  is_us_person && decide (maxAggregate series > 10000)

/-! ## Internationalisation (src/unnamed/part_003, lib/i18n.ts) -/

inductive Locale where
  | en
  | ar
  deriving DecidableEq

/-- The `en` table of the `translations` record in i18n.ts. -/
def enTable : List (String × String) := [
  ("nav.portfolio", "Portfolio"),
  ("nav.goals", "Goals"),
  ("nav.tax", "Tax"),
  ("nav.documents", "Documents"),
  ("nav.settings", "Settings"),
  ("nav.logout", "Logout"),
  ("portfolio.title", "Portfolio Overview"),
  ("portfolio.total_value", "Total Net Worth"),
  ("portfolio.accounts", "Your Accounts"),
  ("portfolio.performance", "Performance"),
  ("portfolio.allocation", "Asset Allocation"),
  ("portfolio.last_updated", "Last updated"),
  ("portfolio.sync", "Sync Accounts"),
  ("goals.title", "Investment Goals"),
  ("goals.create", "Create Goal"),
  ("goals.target", "Target Amount"),
  ("goals.current", "Current Amount"),
  ("goals.progress", "Progress"),
  ("goals.on_track", "On Track"),
  ("goals.behind", "Behind Schedule"),
  ("goals.types.retirement", "Retirement"),
  ("goals.types.education", "Education"),
  ("goals.types.home", "Buy a Home"),
  ("goals.types.travel", "Travel"),
  ("goals.types.custom", "Custom Goal"),
  ("tax.title", "Tax Reports"),
  ("tax.fatca", "FATCA Reporting"),
  ("tax.crs", "CRS Reporting"),
  ("tax.zakat", "Zakat Calculator"),
  ("tax.generate", "Generate Report"),
  ("tax.download", "Download PDF"),
  ("common.loading", "Loading..."),
  ("common.error", "An error occurred"),
  ("common.save", "Save"),
  ("common.cancel", "Cancel"),
  ("common.delete", "Delete"),
  ("common.confirm", "Confirm"),
  ("common.next", "Next"),
  ("common.back", "Back"),
  ("common.submit", "Submit"),
  ("common.search", "Search"),
  ("common.filter", "Filter"),
  ("common.all", "All"),
  ("auth.login", "Sign In"),
  ("auth.logout", "Sign Out"),
  ("auth.email", "Email Address"),
  ("auth.password", "Password"),
  ("auth.forgot_password", "Forgot Password?"),
  ("auth.register", "Create Account")
]

/-- The `ar` table of the `translations` record in i18n.ts. -/
def arTable : List (String × String) := [
  ("nav.portfolio", "المحفظة"),
  ("nav.goals", "الأهداف"),
  ("nav.tax", "الضرائب"),
  ("nav.documents", "المستندات"),
  ("nav.settings", "الإعدادات"),
  ("nav.logout", "تسجيل الخروج"),
  ("portfolio.title", "نظرة عامة على المحفظة"),
  ("portfolio.total_value", "إجمالي صافي الثروة"),
  ("portfolio.accounts", "حساباتك"),
  ("portfolio.performance", "الأداء"),
  ("portfolio.allocation", "توزيع الأصول"),
  ("portfolio.last_updated", "آخر تحديث"),
  ("portfolio.sync", "مزامنة الحسابات"),
  ("goals.title", "أهداف الاستثمار"),
  ("goals.create", "إنشاء هدف"),
  ("goals.target", "المبلغ المستهدف"),
  ("goals.current", "المبلغ الحالي"),
  ("goals.progress", "التقدم"),
  ("goals.on_track", "على المسار الصحيح"),
  ("goals.behind", "متأخر عن الجدول"),
  ("goals.types.retirement", "التقاعد"),
  ("goals.types.education", "التعليم"),
  ("goals.types.home", "شراء منزل"),
  ("goals.types.travel", "السفر"),
  ("goals.types.custom", "هدف مخصص"),
  ("tax.title", "التقارير الضريبية"),
  ("tax.fatca", "تقارير فاتكا"),
  ("tax.crs", "تقارير CRS"),
  ("tax.zakat", "حاسبة الزكاة"),
  ("tax.generate", "إنشاء تقرير"),
  ("tax.download", "تحميل PDF"),
  ("common.loading", "جاري التحميل..."),
  ("common.error", "حدث خطأ"),
  ("common.save", "حفظ"),
  ("common.cancel", "إلغاء"),
  ("common.delete", "حذف"),
  ("common.confirm", "تأكيد"),
  ("common.next", "التالي"),
  ("common.back", "السابق"),
  ("common.submit", "إرسال"),
  ("common.search", "بحث"),
  ("common.filter", "تصفية"),
  ("common.all", "الكل"),
  ("auth.login", "تسجيل الدخول"),
  ("auth.logout", "تسجيل الخروج"),
  ("auth.email", "البريد الإلكتروني"),
  ("auth.password", "كلمة المرور"),
  ("auth.forgot_password", "نسيت كلمة المرور؟"),
  ("auth.register", "إنشاء حساب")
]

/-- `translations[locale]`. -/
def translations (loc : Locale) : List (String × String) :=
  match loc with
  | Locale.en => enTable
  | Locale.ar => arTable

/-- `translations[locale][key]` as the program evaluates it: own keys
yield their translation string, keys naming inherited `Object.prototype`
members leak the truthy inherited member, other keys are `undefined`. -/
def translationAccess (loc : Locale) (key : String) : JsProp String :=
  jsIndex (translations loc) key

/-- A runtime value of the expression
`translations[locale][key] || translations['en'][key] || key`: a string,
or a member leaked from `Object.prototype` — a function or object, even
though `t` is declared to return `string`. -/
inductive JsStringValue where
  | str : String → JsStringValue
  | protoLeak : String → JsStringValue
  deriving DecidableEq

/-- JavaScript `x || fallback` for one step of the chain: an own string
is kept unless empty (falsy), an inherited member is truthy and kept,
`undefined` falls through to the fallback. -/
def jsOrT (x : JsProp String) (fallback : JsStringValue) : JsStringValue :=
  match x with
  | JsProp.value s => if s = "" then fallback else JsStringValue.str s
  | JsProp.inherited name => JsStringValue.protoLeak name
  | JsProp.undef => fallback

/-- `t(key)` from `useTranslation` at a params-free call (with `params`
absent the substitution loop never runs):
`translations[locale][key] || translations['en'][key] || key`. -/
def tValue (loc : Locale) (key : String) : JsStringValue :=
  jsOrT (translationAccess loc key)
    (jsOrT (translationAccess Locale.en key) (JsStringValue.str key))

/-- `const locale: Locale = tenant.country === 'SA' ? 'ar' : 'en'` in
`useTranslation`. -/
def activeLocale (tenant : BankConfig) : Locale :=
  if tenant.country = Country.SA then Locale.ar else Locale.en

/-! ## Shared helper lemmas -/

/-- A left fold of `max` exceeds a bound iff the seed or some element does. -/
theorem foldl_max_lt_iff (c : ℚ) :
    ∀ (s : List ℚ) (a : ℚ), c < s.foldl max a ↔ c < a ∨ ∃ b ∈ s, c < b := by
  intro s
  induction s with
  | nil => intro a; simp
  | cons x xs ih =>
    intro a
    rw [List.foldl_cons, ih]
    constructor
    · rintro (h | ⟨b, hb, hcb⟩)
      · rcases lt_max_iff.mp h with h | h
        · exact Or.inl h
        · exact Or.inr ⟨x, List.mem_cons_self x xs, h⟩
      · exact Or.inr ⟨b, List.mem_cons_of_mem _ hb, hcb⟩
    · rintro (h | ⟨b, hb, hcb⟩)
      · exact Or.inl (lt_max_iff.mpr (Or.inl h))
      · rcases List.mem_cons.mp hb with rfl | hb
        · exact Or.inl (lt_max_iff.mpr (Or.inr hcb))
        · exact Or.inr ⟨b, hb, hcb⟩

/-! ## Claims -/

/-- C1 counterexample: two invocations of the charge operation with the
same request payload (same fee code and amount) do not yield one record:
the demo-mode fallback mints a fresh `charge_id` from the fresh random
suffix of each call, and both results carry terminal status `captured`,
so a retry produces a second captured Charge instead of returning the
first. -/
theorem charge_not_idempotent_cex :
    (mockChargeFee "abc123" "2026-01-01T00:00:00.000Z").status = "captured" ∧
    (mockChargeFee "xyz789" "2026-01-01T00:00:01.000Z").status = "captured" ∧
    (mockChargeFee "abc123" "2026-01-01T00:00:00.000Z").charge_id
      ≠ (mockChargeFee "xyz789" "2026-01-01T00:00:01.000Z").charge_id :=
  ⟨rfl, rfl, by decide⟩

/-- C1 (amended): each invocation of the charge operation's demo-mode
fallback returns a Charge in terminal status `captured` with amount
19.99 and a `charge_id` equal to `mock_charge_` followed by that call's
fresh random suffix; the frontend never sends an idempotency key and
performs no deduplication, so repeated calls yield as many captured
records as calls. -/
theorem charge_mock_fresh_capture (randSuffix now : String) :
    (mockChargeFee randSuffix now).status = "captured" ∧
    (mockChargeFee randSuffix now).amount = 1999 / 100 ∧
    (mockChargeFee randSuffix now).charge_id = "mock_charge_" ++ randSuffix :=
  ⟨rfl, rfl, rfl⟩

/-- C2: for every assets map and liabilities map, the Zakat page sets
`netZakatableWealth` to the sum of the zakatable asset values minus the
sum of the deductible liability values, and `zakatDue` is 0 when the net
wealth is below the nisab threshold and `0.025 *` the net wealth
otherwise. -/
theorem zakat_net_and_due (a : ZakatAssets) (l : ZakatLiabilities) :
    netZakatableWealth a l
        = (a.cash_bank + a.gold_silver + a.investments + a.business_assets
            + a.receivables + a.real_estate_rental)
          - (l.short_term_debts + l.loans + l.credit_cards) ∧
    (netZakatableWealth a l < mockZakatData.nisab_threshold →
      zakatDue mockZakatData a l = 0) ∧
    (¬ netZakatableWealth a l < mockZakatData.nisab_threshold →
      zakatDue mockZakatData a l = (25 / 1000) * netZakatableWealth a l) := by
  refine ⟨by simp [netZakatableWealth, totalAssets, totalLiabilities], ?_, ?_⟩
  · intro h
    simp [zakatDue, nisabMet, not_le.mpr h]
  · intro h
    simp [zakatDue, nisabMet, not_lt.mp h, mul_comm]

/-- Witness for C2 at the spec's worked example (the page's seed data):
assets total 267000, liabilities total 17000, net 250000 is at or above
the 5460 nisab threshold, and the due amount is 2.5% of net, i.e. 6250. -/
theorem zakat_net_and_due_witness :
    ¬ netZakatableWealth mockZakatData.assets mockZakatData.liabilities
        < mockZakatData.nisab_threshold ∧
    zakatDue mockZakatData mockZakatData.assets mockZakatData.liabilities
        = (25 / 1000) * netZakatableWealth mockZakatData.assets mockZakatData.liabilities ∧
    zakatDue mockZakatData mockZakatData.assets mockZakatData.liabilities = 6250 := by
  have hnot : ¬ netZakatableWealth mockZakatData.assets mockZakatData.liabilities
      < mockZakatData.nisab_threshold := by
    norm_num [netZakatableWealth, totalAssets, totalLiabilities, mockZakatData]
  refine ⟨hnot, (zakat_net_and_due mockZakatData.assets mockZakatData.liabilities).2.2 hnot, ?_⟩
  norm_num [zakatDue, nisabMet, netZakatableWealth, totalAssets, totalLiabilities, mockZakatData]

/-- C3 (code bug): the demo-mode `/fees/calculate` path never returns
the claimed response: at the claim's request `getMockData` parses the
raw un-stringified body object and throws a SyntaxError — even though
the code after the parse would build exactly the claimed response,
`fee_amount` 19.99 with `is_optional` true, for fee code
`TAX_REPORT_FATCA`. -/
theorem calculate_fatca_demo_crash :
    demoCalculateFee
        (some { fee_code := "TAX_REPORT_FATCA", quantity := some 1, base_amount := some 0 })
      = Except.error "SyntaxError" ∧
    (mockCalculateResponse
        { fee_code := "TAX_REPORT_FATCA", quantity := some 1, base_amount := some 0 }).fee_amount
      = 1999 / 100 ∧
    (mockCalculateResponse
        { fee_code := "TAX_REPORT_FATCA", quantity := some 1, base_amount := some 0 }).is_optional
      = true := by
  refine ⟨rfl, ?_, ?_⟩ <;> norm_num [mockCalculateResponse]

/-- C4 counterexample: the nisab threshold the comparison uses is not
recomputed from the configured gold price per gram times 85 grams: at
the page's own annotated gram price of $64.24, the spec formula yields
5460.40, not the constant 5460 the code compares against; and at a net
wealth of 5460.20 the code charges Zakat even though the gold-derived
threshold would not be met. -/
theorem nisab_threshold_not_recomputed_cex :
    nisabFromGoldPerGram (6424 / 100) ≠ mockZakatData.nisab_threshold ∧
    zakatDue mockZakatData
        { cash_bank := 54602 / 10, gold_silver := 0, investments := 0,
          business_assets := 0, receivables := 0, real_estate_rental := 0 }
        { short_term_debts := 0, loans := 0, credit_cards := 0 } ≠ 0 ∧
    netZakatableWealth
        { cash_bank := 54602 / 10, gold_silver := 0, investments := 0,
          business_assets := 0, receivables := 0, real_estate_rental := 0 }
        { short_term_debts := 0, loans := 0, credit_cards := 0 }
      < nisabFromGoldPerGram (6424 / 100) := by
  refine ⟨by norm_num [nisabFromGoldPerGram, mockZakatData], ?_, ?_⟩
  · norm_num [zakatDue, nisabMet, netZakatableWealth, totalAssets, totalLiabilities, mockZakatData]
  · norm_num [nisabFromGoldPerGram, netZakatableWealth, totalAssets, totalLiabilities]

/-- C4 (amended): the nisab threshold used for the `nisabMet` comparison
is the fixed constant 5460 hard-coded in `mockZakatData`; the evaluation
is invariant under any change to the configured gold price, which is
display-only. -/
theorem nisab_threshold_fixed_constant (g : ℚ) (a : ZakatAssets) (l : ZakatLiabilities) :
    zakatDue { mockZakatData with nisab_gold_price := g } a l = zakatDue mockZakatData a l ∧
    nisabMet { mockZakatData with nisab_gold_price := g } a l = nisabMet mockZakatData a l ∧
    mockZakatData.nisab_threshold = 5460 :=
  ⟨rfl, rfl, rfl⟩

/-- C5 (code bug): every body-carrying invocation of the demo-mode
`/fees/calculate` path — and `calculateFee` always sends a body — throws
the same SyntaxError from parsing the un-stringified body object, so no
invocation of the calculate path present in src/ produces a `fee_amount`
at all; in particular the claim's own input crashes. -/
theorem calculate_demo_no_fee_produced :
    demoCalculateFee
        (some { fee_code := "TAX_REPORT_FATCA", quantity := some 1, base_amount := some 0 })
      = Except.error "SyntaxError" ∧
    ∀ body : FeeCalcRequest, demoCalculateFee (some body) = Except.error "SyntaxError" :=
  ⟨rfl, fun _ => rfl⟩

/-- C6 (code bug): resolving the nonexistent tenant `toString` does not
fail: strategy 2 accepts the path segment because the truthy inherited
`Object.prototype.toString` passes the `MOCK_BANKS[slug]` guard, and the
final access then returns that leaked member as the "configuration"
instead of calling `notFound()` — although `toString` is not a
configured tenant (no API configured, both network oracles empty). -/
theorem resolveTenant_proto_leak :
    resolveTenant none (fun _ => none) (fun _ => none) "localhost" "/toString"
      = Except.ok (JsBankValue.protoLeak "toString") ∧
    MOCK_BANKS.lookup "toString" = none ∧
    "toString" ∉ getAllTenantSlugs := by
  refine ⟨by rfl, by decide, by decide⟩

/-- C7: for a U.S. person, `requires_fbar` holds exactly when the
maximum aggregate foreign balance over the time series strictly exceeds
10000; equivalently, when some balance anywhere in the series exceeds
10000 (so a period-end balance below the threshold does not clear the
flag, as the example series with a mid-year spike shows). -/
theorem fatca_fbar_iff_max_over_series (series : List ℚ) :
    (fatcaRequiresFbar true series = true ↔ 10000 < maxAggregate series) ∧
    (10000 < maxAggregate series ↔ ∃ b ∈ series, 10000 < b) ∧
    fatcaRequiresFbar false series = false ∧
    fatcaRequiresFbar true [15000, 5000] = true := by
  refine ⟨?_, ?_, rfl, ?_⟩
  · simp [fatcaRequiresFbar, gt_iff_lt]
  · rw [maxAggregate, foldl_max_lt_iff]
    norm_num
  · simp only [fatcaRequiresFbar, Bool.true_and, decide_eq_true_eq, gt_iff_lt, maxAggregate]
    rw [foldl_max_lt_iff]
    refine Or.inr ⟨15000, List.mem_cons_self _ _, by norm_num⟩

/-- C8: `useTenant` returns the configuration supplied to the enclosing
`TenantProvider` and throws `useTenant must be used within
TenantProvider` on the default (providerless) context, while
`useTenantOptional` returns the context as-is: `null` without a
provider, the supplied configuration with one. -/
theorem useTenant_context_contract :
    (∀ config : BankConfig, useTenant (provideTenant config) = Except.ok config) ∧
    useTenant tenantContextDefault
      = Except.error "useTenant must be used within TenantProvider" ∧
    useTenantOptional tenantContextDefault = none ∧
    (∀ config : BankConfig, useTenantOptional (provideTenant config) = some config) :=
  ⟨fun _ => rfl, rfl, rfl, fun _ => rfl⟩

/-- C9 (code bug): `t` does not return the key for every key absent from
both tables: a key naming an inherited `Object.prototype` member
(`constructor`, `toString`, ...) is absent from both tables yet truthy
at the first access, so the `||` chain returns the leaked inherited
member — not a string at all, let alone the key itself — for either
locale. -/
theorem t_proto_leak :
    tValue Locale.en "constructor" = JsStringValue.protoLeak "constructor" ∧
    tValue Locale.ar "toString" = JsStringValue.protoLeak "toString" ∧
    (translations Locale.en).lookup "constructor" = none ∧
    (translations Locale.ar).lookup "constructor" = none ∧
    ∀ s : String, tValue Locale.en "constructor" ≠ JsStringValue.str s := by
  refine ⟨by decide, by decide, by decide, by decide, ?_⟩
  intro s h
  have e : tValue Locale.en "constructor" = JsStringValue.protoLeak "constructor" := by decide
  rw [e] at h
  exact JsStringValue.noConfusion h

/-- C10 (code bug): `getTenantBySlug` does not return `null` for every
slug outside the configured three: the slug `toString` is not a
configured bank slug, yet the access leaks the truthy inherited
`Object.prototype.toString`, so `|| null` never fires and the function
returns the leaked member — which is also not one of the `BankConfig`
objects. -/
theorem getTenantBySlug_proto_leak :
    getTenantBySlug "toString" = some (JsBankValue.protoLeak "toString") ∧
    getTenantBySlug "toString" ≠ none ∧
    "toString" ∉ getAllTenantSlugs ∧
    ∀ cfg : BankConfig, getTenantBySlug "toString" ≠ some (JsBankValue.config cfg) := by
  refine ⟨by decide, by decide, by decide, ?_⟩
  intro cfg h
  have e : getTenantBySlug "toString" = some (JsBankValue.protoLeak "toString") := by decide
  rw [e] at h
  injection h with h1
  exact JsBankValue.noConfusion h1

end GccWealth
